import Mathlib

/-!
# modmesh: the embedded Python host (`cpp/modmesh/python/common.cpp`)

A shallow embedding of `modmesh::python::Interpreter` and
`modmesh::python::PythonStreamRedirect`.

* C++ member state becomes a structure; a member function becomes a function on
  that structure together with the part of the Python runtime it touches.
* Calls into CPython / pybind11 are modelled by their effect on an explicit
  runtime state (or by an oracle parameter where the result is decided by the
  scripts that are run).
* Text is `String`; file-system paths are `List Char`, so that the POSIX
  `os.path` functions used by the embedded script can be followed character by
  character.
-/

namespace modmesh
namespace python

/-! ## Interpreter: ownership of the runtime -/

/-- The member `m_interpreter` of `Interpreter` together with the part of the process
state that `initialize` and `finalize` read or write.

* `m_interpreter`: the owning pointer (`none` is `nullptr`; `some k` points to the
  `k`-th `pybind11::scoped_interpreter` that was constructed).
* `py_initialized`: what `Py_IsInitialized()` reports.
* `started`: how many `scoped_interpreter` objects have been constructed.
* `torn_down`: how many have been destroyed (`delete m_interpreter`). -/
structure Interpreter where
  m_interpreter : Option Nat
  py_initialized : Bool
  started : Nat
  torn_down : Nat
  deriving DecidableEq, Repr

namespace Interpreter

/-- The C function `Py_IsInitialized()`: non-zero when the runtime is up. -/
def Py_IsInitialized (o : Interpreter) : Int :=
  if o.py_initialized then 1 else 0

/-- The expression `new pybind11::scoped_interpreter(true, 0, nullptr, true)`: a runtime is
started and the new object is returned. -/
def new_scoped_interpreter (o : Interpreter) : Interpreter × Nat :=
  ({ o with py_initialized := true, started := o.started + 1 }, o.started)

/-- The statement `delete m_interpreter`: the destructor of `scoped_interpreter` tears the
runtime down. -/
def delete_scoped_interpreter (o : Interpreter) : Interpreter :=
  { o with py_initialized := false, torn_down := o.torn_down + 1 }

/-- The state of the function-local static in `Interpreter::instance()` before first use,
in a process where no runtime has been started. -/
def instance_ : Interpreter :=
  { m_interpreter := none, py_initialized := false, started := 0, torn_down := 0 }

/-- The member function `Interpreter::initialize` (the trailing underscore avoids a reserved
word). -/
def initialize_ (o : Interpreter) : Interpreter :=
  if o.m_interpreter = none then
    let (o1, p) := new_scoped_interpreter o
    { o1 with m_interpreter := some p }
  else o

/-- The member function `Interpreter::finalize`. -/
def finalize (o : Interpreter) : Interpreter :=
  if o.m_interpreter ≠ none then
    let o1 := if 0 ≠ Py_IsInitialized o then delete_scoped_interpreter o else o
    { o1 with m_interpreter := none }
  else o

/-- Number of runtimes started through the host and not torn down through it. -/
def live (o : Interpreter) : Nat := o.started - o.torn_down

/-- A call made on the host in a lifecycle sequence. -/
inductive Call where
  | initialize_
  | finalize
  deriving DecidableEq, Repr

/-- One call applied to the host. -/
def step (o : Interpreter) : Call → Interpreter
  | .initialize_ => initialize_ o
  | .finalize => finalize o

/-- A sequence of calls applied in order. -/
def run (o : Interpreter) (calls : List Call) : Interpreter :=
  calls.foldl step o

/-- The relation between the owning pointer and the runtime that the lifecycle calls keep:
without a handle no runtime started by the host is up; with a handle exactly one is. -/
def Consistent (o : Interpreter) : Prop :=
  (o.m_interpreter = none → o.py_initialized = false ∧ o.started = o.torn_down) ∧
  (o.m_interpreter ≠ none → o.py_initialized = true ∧ o.started = o.torn_down + 1)

end Interpreter

/-! ## Interpreter::setup_modmesh_path: the embedded discovery script

The script only uses `os.getcwd`, `os.path.join`, `os.path.dirname`, `os.path.exists` and
`sys.path.insert`. The `os.path` functions are the POSIX ones (`posixpath`). -/

/-- The path separator of `posixpath`. -/
def sep : Char := '/'

/-- Worker of `rfind`: scans the text left to right from index `i`, remembering in `last` the
index of the latest occurrence of `c` seen so far. -/
def rfind_from (c : Char) : List Char → Nat → Int → Int
  | [], _, last => last
  | x :: xs, i, last => rfind_from c xs (i + 1) (if x = c then (i : Int) else last)

/-- Python `p.rfind(c)`: the highest index at which `c` occurs, or `-1`. -/
def rfind (p : List Char) (c : Char) : Int :=
  rfind_from c p 0 (-1)

/-- Python `s.rstrip(c)`: the text without its trailing run of `c`. -/
def rstrip (s : List Char) (c : Char) : List Char :=
  (s.reverse.dropWhile (fun x => x == c)).reverse

/-- The function `posixpath.dirname`:
`i = p.rfind(sep) + 1; head = p[:i];`
`if head and head != sep*len(head): head = head.rstrip(sep); return head`. -/
def dirname (p : List Char) : List Char :=
  let i := rfind p sep + 1
  let head := p.take i.toNat
  if head ≠ [] ∧ head ≠ List.replicate head.length sep then rstrip head sep else head

/-- The function `posixpath.join` for two components:
`if b.startswith(sep): path = b`
`elif not path or path.endswith(sep): path += b`
`else: path += sep + b`. -/
def join (a b : List Char) : List Char :=
  if b.head? = some sep then b
  else if a = [] ∨ a.getLast? = some sep then a ++ b
  else a ++ sep :: b

/-- The function `posixpath.isabs`: `s.startswith(sep)`. The result of `os.getcwd()` is an
absolute path. -/
def isabs (s : List Char) : Bool :=
  s.head? = some sep

/-- The script's `filename = os.path.join('modmesh', '__init__.py')`. -/
def filename : List Char :=
  join "modmesh".toList "__init__.py".toList

/-- The `while True:` loop of `_set_modmesh_path`, started with the variable `path`; the result
is the value of `path` when the loop is left (`none` is Python `None`). The argument
`exists_` is `os.path.exists`. -/
def while_loop (exists_ : List Char → Bool) (path : List Char) : Option (List Char) :=
  if exists_ (join path filename) then some path
  else if h : path = dirname path then none
  else while_loop exists_ (dirname path)
termination_by path.length
decreasing_by
  have hpre : dirname path <+: path := by
    unfold dirname
    simp only []
    split
    · refine List.IsPrefix.trans ?_ (List.take_prefix (rfind path sep + 1).toNat path)
      unfold rstrip
      have hs := List.dropWhile_suffix (fun x => x == sep)
        (l := (List.take (rfind path sep + 1).toNat path).reverse)
      simpa using List.reverse_prefix.mpr hs
    · exact List.take_prefix _ _
  have hle : (dirname path).length ≤ path.length := hpre.length_le
  rcases Nat.lt_or_ge (dirname path).length path.length with hlt | hge
  · exact hlt
  · exact absurd (hpre.eq_of_length (le_antisymm hle hge)).symm h

/-- The Python function `_set_modmesh_path` run with `os.getcwd() = cwd`; the result is the
new value of `sys.path`. -/
def _set_modmesh_path (exists_ : List Char → Bool) (cwd : List Char)
    (sys_path : List (List Char)) : List (List Char) :=
  match while_loop exists_ cwd with
  | some path => if path ≠ [] then path :: sys_path else sys_path
  | none => sys_path

/-- What `Interpreter::setup_modmesh_path` reads and writes: the runtime's `sys.path` and the
text written to `std::cerr`. -/
structure PathState where
  sys_path : List (List Char)
  cerr : String
  deriving DecidableEq, Repr

/-- The member function `Interpreter::setup_modmesh_path`. The argument `getcwd` is the
outcome of `os.getcwd()`: a directory, or the message of the Python error it raises (which
`pybind11::exec` rethrows as `error_already_set`). -/
def setup_modmesh_path (exists_ : List Char → Bool) (getcwd : Except String (List Char))
    (w : PathState) : PathState :=
  match getcwd with
  | .ok cwd => { w with sys_path := _set_modmesh_path exists_ cwd w.sys_path }
  | .error what => { w with cerr := w.cerr ++ what ++ "\n" }

/-- Working directory of the path-discovery scenario: `T/sub/sub2` for `T = /T`. -/
def scenario_cwd : List Char := "/T/sub/sub2".toList

/-- File system of the path-discovery scenario: of the files asked for, only
`/T/modmesh/__init__.py` exists. -/
def scenario_exists (p : List Char) : Bool := p == "/T/modmesh/__init__.py".toList

/-- State before the call in the path-discovery scenario. -/
def scenario_state : PathState := ⟨["/usr/lib/python3".toList], ""⟩

/-! ## Interpreter::enter_main -/

/-- Outcome of a call into the Python runtime through pybind11: the value the call returned,
or a raised Python error, which pybind11 delivers as `pybind11::error_already_set` whose
`what()` is the message. -/
inductive PyResult (α : Type) where
  | returned (v : α)
  | raised (what : String)
  deriving DecidableEq, Repr

/-- Behaviour of the scripting side in one run, as far as `enter_main` can observe it.

* `import_system`: outcome of `pybind11::module_::import("modmesh.system")`.
* `enter_main`: outcome of calling the attribute `enter_main` of that module with the argument
  list; a returned value is a Python `int`, which is unbounded. -/
structure SystemModule where
  import_system : PyResult Unit
  enter_main : List String → PyResult Int

/-- Least value of the C++ type `int` (32 bits). -/
def INT_MIN : Int := -2147483648

/-- Greatest value of the C++ type `int` (32 bits). -/
def INT_MAX : Int := 2147483647

/-- The conversion `pybind11::cast<int>` applied to a Python `int`: the value when it fits the
C++ `int`; otherwise (`none`) pybind11 throws `pybind11::cast_error`, a `std::runtime_error`
that is not an `error_already_set`. -/
def cast_int (v : Int) : Option Int :=
  if INT_MIN ≤ v ∧ v ≤ INT_MAX then some v else none

/-- How a C++ function is left: by `return` with a value, or by an exception that no handler
of the function catches. -/
inductive Exit (α : Type) where
  | returns (v : α)
  | throws_cast_error
  deriving DecidableEq, Repr

/-- The member function `Interpreter::enter_main`, run with `cmdinfo.python_argv() = argv` and
`cerr` the text already written to `std::cerr`. The result is how the function is left and the
new text of `std::cerr`. The handler catches `error_already_set` only. -/
def enter_main (m : SystemModule) (argv : List String) (cerr : String) : Exit Int × String :=
  let ret : Int := -1
  match m.import_system with
  | .raised what => (.returns ret, cerr ++ what ++ "\n")
  | .returned _ =>
    match m.enter_main argv with
    | .raised what => (.returns ret, cerr ++ what ++ "\n")
    | .returned v =>
      match cast_int v with
      | some n => (.returns n, cerr)
      | none => (.throws_cast_error, cerr)

/-- A scripting side whose entry returns the Python integer `2147483648`, one more than
`INT_MAX`. -/
def script_returning_large : SystemModule :=
  ⟨.returned (), fun _ => .returned 2147483648⟩

/-- A scripting side whose entry returns `-1` normally, raising nothing. -/
def script_returning_minus_one : SystemModule :=
  ⟨.returned (), fun _ => .returned (-1)⟩

/-- A scripting side whose entry returns `7`. -/
def script_returning_seven : SystemModule :=
  ⟨.returned (), fun _ => .returned 7⟩

/-- A scripting side whose entry raises an error with the message `boom`. -/
def script_raising : SystemModule :=
  ⟨.returned (), fun _ => .raised "boom"⟩

/-! ## Interpreter::preload_module and Interpreter::preload_modules -/

/-- A caught `pybind11::error_already_set`: whether `e.matches(PyExc_ModuleNotFoundError)`
holds, and its message. -/
structure error_already_set where
  matches_ModuleNotFoundError : Bool
  what : String
  deriving DecidableEq, Repr

/-- Outcome of `py::module_::import(name)`. -/
inductive ImportResult where
  | ok
  | raised (e : error_already_set)
  deriving DecidableEq, Repr

/-- Outcome of `py::exec(code)`: the fragment runs to its end, or raises a Python error. -/
inductive ExecResult where
  | ok
  | raised (e : error_already_set)
  deriving DecidableEq, Repr

/-- What the preload functions read and write.

* `cerr`: the text written to `std::cerr`.
* `imported`: the arguments of the calls `py::module_::import(name)` made so far, in order.
* `executed`: the source fragments handed to `py::exec`, in order.
* `globals`: the module names bound in the global namespace by an `import <name>` statement
  that ran to its end. -/
structure PreloadState where
  cerr : String
  imported : List String
  executed : List String
  globals : List String
  deriving DecidableEq, Repr

/-- The member function `Interpreter::preload_module`.

* The oracle `import_` gives the outcome of `py::module_::import(name)` from the imports
  attempted before it (so that the outcome may depend on what was loaded earlier).
* The oracle `exec_` gives the outcome of `py::exec(code)` from the imports attempted so far
  and the source fragment.

The second component of the result is `none` when the function returns and `some e` when the
exception `e` leaves it: by the `throw;` of the handler, or out of `py::exec`, which stands
after the `try` block and has no handler. -/
def preload_module (import_ : List String → String → ImportResult)
    (exec_ : List String → String → ExecResult) (name : String)
    (s : PreloadState) : PreloadState × Option error_already_set :=
  let s1 := { s with cerr := s.cerr ++ "Loading " ++ name ++ " ... " }
  let s2 := { s1 with imported := s1.imported ++ [name] }
  match import_ s.imported name with
  | .raised e =>
    if e.matches_ModuleNotFoundError then (s2, some e)
    else
      -- load_failure = true: the block after the handler is skipped
      ({ s2 with cerr := s2.cerr ++ "fails" ++ "\n" }, none)
  | .ok =>
    let s3 := { s2 with cerr := s2.cerr ++ "succeeds" ++ "\n" }
    let s4 := { s3 with executed := s3.executed ++ ["import " ++ name] }
    match exec_ s4.imported ("import " ++ name) with
    | .ok => ({ s4 with globals := s4.globals ++ [name] }, none)
    | .raised e => (s4, some e)

/-- The member function `Interpreter::preload_modules`: the range-based `for` over `names`; an
exception leaving `preload_module` leaves the loop and the function. -/
def preload_modules (import_ : List String → String → ImportResult)
    (exec_ : List String → String → ExecResult) :
    List String → PreloadState → PreloadState × Option error_already_set
  | [], s => (s, none)
  | name :: names, s =>
    match preload_module import_ exec_ name s with
    | (s1, some e) => (s1, some e)
    | (s1, none) => preload_modules import_ exec_ names s1

/-- Whether the runtime reports module-not-found for `name` after the imports `history`. -/
def reports_not_found (import_ : List String → String → ImportResult)
    (history : List String) (name : String) : Bool :=
  match import_ history name with
  | .raised e => e.matches_ModuleNotFoundError
  | .ok => false

/-- Whether, after the imports `history`, `name` is imported successfully and the statement
`import <name>` then raises. -/
def statement_raises (import_ : List String → String → ImportResult)
    (exec_ : List String → String → ExecResult)
    (history : List String) (name : String) : Bool :=
  match import_ history name with
  | .raised _ => false
  | .ok =>
    match exec_ (history ++ [name]) ("import " ++ name) with
    | .raised _ => true
    | .ok => false

/-- A runtime for the preload scenarios: importing `bad` raises an error that is not
module-not-found, importing `zzz_nonexistent` raises module-not-found, every other import
succeeds (among them `my-module`, a module file whose name is no identifier). -/
def scenario_import (_history : List String) (name : String) : ImportResult :=
  if name = "bad" then .raised ⟨false, "RuntimeError: broken"⟩
  else if name = "zzz_nonexistent" then
    .raised ⟨true, "ModuleNotFoundError: No module named zzz_nonexistent"⟩
  else .ok

/-- The same runtime asked to execute a fragment: the statement `import my-module` is no
valid Python and raises `SyntaxError`; every other fragment runs to its end. -/
def scenario_exec (_history : List String) (code : String) : ExecResult :=
  if code = "import my-module" then .raised ⟨false, "SyntaxError: invalid syntax"⟩
  else .ok

/-- State before any preload: nothing written, imported, executed or bound. -/
def scenario_preload_state : PreloadState := ⟨"", [], [], []⟩

/-! ## PythonStreamRedirect -/

/-- A Python object of the runtime, as far as the redirector can tell objects apart.

* `text_buffer content pos`: an `io.StringIO` object, with the text it holds and its stream
  position.
* `stream written`: any other object installed as a standard stream (the console stream,
  say), with the text written to it so far. -/
inductive PyObject where
  | text_buffer (content : List Char) (pos : Nat)
  | stream (written : List Char)
  deriving DecidableEq, Repr

/-- The part of the Python runtime the redirector touches: the objects (a reference to an
object is its index in `heap`) and the two attributes `sys.stdout` and `sys.stderr`. -/
structure Runtime where
  heap : List PyObject
  sys_stdout : Nat
  sys_stderr : Nat
  deriving DecidableEq, Repr

/-- The data members of `PythonStreamRedirect`. A `pybind11::object` member is `none` when it
holds no object (its `operator bool` is then false) and `some ref` otherwise. -/
structure PythonStreamRedirect where
  m_enabled : Bool
  m_stdout_backup : Option Nat
  m_stderr_backup : Option Nat
  m_stdout_buffer : Option Nat
  m_stderr_buffer : Option Nat
  deriving DecidableEq, Repr

/-- The method `write(s)` of a stream object. On an `io.StringIO` an empty text changes
nothing; any other text is written at the stream position (padding with NUL when the position
is past the end, overwriting what lies under it otherwise) and the position moves to the end
of what was written. -/
def PyObject.write (s : List Char) : PyObject → PyObject
  | .text_buffer content pos =>
    if s = [] then .text_buffer content pos
    else
      let padded := content ++ List.replicate (pos - content.length) (Char.ofNat 0)
      .text_buffer (padded.take pos ++ s ++ padded.drop (pos + s.length)) (pos + s.length)
  | .stream written => .stream (written ++ s)

/-- The method `seek(pos)` of an `io.StringIO`. -/
def PyObject.seek (pos : Nat) : PyObject → Option PyObject
  | .text_buffer content _ => some (.text_buffer content pos)
  | .stream _ => none

/-- The method `read()` of an `io.StringIO`: the text from the stream position to the end; the
position moves to the end. -/
def PyObject.read : PyObject → Option (List Char × PyObject)
  | .text_buffer content pos =>
    some (content.drop pos, .text_buffer content (max pos content.length))
  | .stream _ => none

namespace Runtime

/-- The call `ref.write(s)` on the object behind a reference. -/
def write (rt : Runtime) (ref : Nat) (s : List Char) : Runtime :=
  match rt.heap[ref]? with
  | some o => { rt with heap := rt.heap.set ref (o.write s) }
  | none => rt

/-- The call `sys.stdout.write(s)`. -/
def write_stdout (rt : Runtime) (s : List Char) : Runtime :=
  rt.write rt.sys_stdout s

/-- The call `sys.stderr.write(s)`. -/
def write_stderr (rt : Runtime) (s : List Char) : Runtime :=
  rt.write rt.sys_stderr s

/-- The Python statement `print(s)`: the text, then the line end, written to `sys.stdout`. -/
def print (rt : Runtime) (s : List Char) : Runtime :=
  (rt.write_stdout s).write_stdout "\n".toList

/-- The call `io.StringIO()`: a fresh, empty buffer object and a reference to it. -/
def string_io (rt : Runtime) : Runtime × Nat :=
  ({ rt with heap := rt.heap ++ [PyObject.text_buffer [] 0] }, rt.heap.length)

end Runtime

namespace PythonStreamRedirect

/-- The member function `PythonStreamRedirect::activate`. -/
def activate (r : PythonStreamRedirect) (rt : Runtime) : PythonStreamRedirect × Runtime :=
  if r.m_enabled then
    let r1 := if r.m_stdout_backup = none then { r with m_stdout_backup := some rt.sys_stdout }
      else r
    let r2 := if r1.m_stderr_backup = none then { r1 with m_stderr_backup := some rt.sys_stderr }
      else r1
    let (rt1, out) := rt.string_io
    let r3 := { r2 with m_stdout_buffer := some out }
    let rt2 := { rt1 with sys_stdout := out }
    let (rt3, err) := rt2.string_io
    let r4 := { r3 with m_stderr_buffer := some err }
    let rt4 := { rt3 with sys_stderr := err }
    (r4, rt4)
  else (r, rt)

/-- The member function `PythonStreamRedirect::deactivate`. -/
def deactivate (r : PythonStreamRedirect) (rt : Runtime) : PythonStreamRedirect × Runtime :=
  let (r1, rt1) :=
    match r.m_stdout_backup with
    | some b => ({ r with m_stdout_backup := none }, { rt with sys_stdout := b })
    | none => (r, rt)
  match r1.m_stderr_backup with
  | some b => ({ r1 with m_stderr_backup := none }, { rt1 with sys_stderr := b })
  | none => (r1, rt1)

/-- The two calls `buffer.attr("seek")(0)` and `buffer.attr("read")()` on a member that may be
empty; `none` when the member holds no `io.StringIO`. -/
def rewind_and_read (buffer : Option Nat) (rt : Runtime) : Option (List Char × Runtime) :=
  match buffer with
  | none => none
  | some ref =>
    match rt.heap[ref]? with
    | none => none
    | some o =>
      match o.seek 0 with
      | none => none
      | some o1 =>
        match o1.read with
        | none => none
        | some (text, o2) => some (text, { rt with heap := rt.heap.set ref o2 })

/-- The member function `PythonStreamRedirect::stdout_string`: the returned text and the
runtime after the call. -/
def stdout_string (r : PythonStreamRedirect) (rt : Runtime) : Option (List Char × Runtime) :=
  rewind_and_read r.m_stdout_buffer rt

/-- The member function `PythonStreamRedirect::stderr_string`. -/
def stderr_string (r : PythonStreamRedirect) (rt : Runtime) : Option (List Char × Runtime) :=
  rewind_and_read r.m_stderr_buffer rt

/-- Something that happens while a redirection is in place: a script writes to one of the
standard streams, or the host reads one of the captured strings. -/
inductive Event where
  | write_stdout (s : List Char)
  | write_stderr (s : List Char)
  | stdout_string
  | stderr_string
  deriving DecidableEq, Repr

/-- The runtime after one event. -/
def after (r : PythonStreamRedirect) (rt : Runtime) : Event → Runtime
  | .write_stdout s => rt.write_stdout s
  | .write_stderr s => rt.write_stderr s
  | .stdout_string => match r.stdout_string rt with
    | some (_, rt1) => rt1
    | none => rt
  | .stderr_string => match r.stderr_string rt with
    | some (_, rt1) => rt1
    | none => rt

/-- The runtime after a sequence of events. -/
def after_all (r : PythonStreamRedirect) (rt : Runtime) (events : List Event) : Runtime :=
  events.foldl (after r) rt

/-- All text written to `sys.stdout` by a sequence of events, in order. -/
def stdout_text : List Event → List Char
  | [] => []
  | .write_stdout s :: events => s ++ stdout_text events
  | _ :: events => stdout_text events

/-- All text written to `sys.stderr` by a sequence of events, in order. -/
def stderr_text : List Event → List Char
  | [] => []
  | .write_stderr s :: events => s ++ stderr_text events
  | _ :: events => stderr_text events

/-- The call `activate()` made `n` times in a row. -/
def activate_times : Nat → PythonStreamRedirect → Runtime → PythonStreamRedirect × Runtime
  | 0, r, rt => (r, rt)
  | n + 1, r, rt =>
    let (r1, rt1) := r.activate rt
    activate_times n r1 rt1

/-- A call made on a redirector. -/
inductive Call where
  | activate
  | deactivate
  deriving DecidableEq, Repr

/-- One call applied to a redirector and the runtime. -/
def step (s : PythonStreamRedirect × Runtime) : Call → PythonStreamRedirect × Runtime
  | .activate => s.1.activate s.2
  | .deactivate => s.1.deactivate s.2

/-- A sequence of calls applied in order. -/
def run (s : PythonStreamRedirect × Runtime) (calls : List Call) :
    PythonStreamRedirect × Runtime :=
  calls.foldl step s

/-- The redirection is in place and consistent: `sys.stdout` and `sys.stderr` are the buffer
objects `out` and `err`, which hold the texts `tout` and `terr` and stand at their ends. -/
def Captures (out err : Nat) (rt : Runtime) (tout terr : List Char) : Prop :=
  rt.sys_stdout = out ∧ rt.sys_stderr = err ∧
  rt.heap[out]? = some (.text_buffer tout tout.length) ∧
  rt.heap[err]? = some (.text_buffer terr terr.length)

/-- A runtime whose standard streams are two console stream objects. -/
def scenario_runtime : Runtime :=
  { heap := [.stream [], .stream []], sys_stdout := 0, sys_stderr := 1 }

/-- A freshly constructed redirector with the given enable flag: no backup, no buffer. -/
def fresh (enabled : Bool) : PythonStreamRedirect :=
  ⟨enabled, none, none, none, none⟩

/-- A redirector that was activated on `scenario_runtime` while enabled and whose enable flag
is false now: it still holds the two backups. -/
def disabled_holding_backups : PythonStreamRedirect :=
  ⟨false, some 0, some 1, some 2, some 3⟩

/-- The runtime after that activation: the two buffers are installed. -/
def scenario_runtime_redirected : Runtime :=
  { heap := [.stream [], .stream [], .text_buffer [] 0, .text_buffer [] 0],
    sys_stdout := 2, sys_stderr := 3 }

end PythonStreamRedirect

/-! ## Interpreter: lifecycle -/

namespace Interpreter

theorem consistent_initialize (o : Interpreter) (h : Consistent o) :
    Consistent (initialize_ o) := by
  obtain ⟨hn, hs⟩ := h
  unfold initialize_ new_scoped_interpreter
  by_cases hm : o.m_interpreter = none
  · obtain ⟨_, h2⟩ := hn hm
    simp [hm, Consistent, h2]
  · simp only [hm, if_false]
    exact ⟨hn, hs⟩

theorem consistent_finalize (o : Interpreter) (h : Consistent o) :
    Consistent (finalize o) := by
  obtain ⟨hn, hs⟩ := h
  unfold finalize delete_scoped_interpreter Py_IsInitialized
  by_cases hm : o.m_interpreter = none
  · simp only [hm, ne_eq, not_true_eq_false, if_false]
    exact ⟨hn, hs⟩
  · obtain ⟨h1, h2⟩ := hs hm
    simp [hm, Consistent, h1, h2]

theorem consistent_run (calls : List Call) (o : Interpreter) (h : Consistent o) :
    Consistent (run o calls) := by
  induction calls generalizing o with
  | nil => exact h
  | cons c cs ih =>
    have hstep : Consistent (step o c) := by
      cases c
      · exact consistent_initialize o h
      · exact consistent_finalize o h
    exact ih (step o c) hstep

theorem initialize_idem (o : Interpreter) : initialize_ (initialize_ o) = initialize_ o := by
  unfold initialize_ new_scoped_interpreter
  by_cases hm : o.m_interpreter = none <;> simp [hm]

/-- C2: for every host state and every answer of `Py_IsInitialized`, `finalize` leaves the host
without a handle; it tears the runtime down (once) exactly when the host held a handle and the
runtime still reported initialized, and never otherwise; with a handle and a runtime that was
already torn down elsewhere only the handle is dropped; without a handle nothing changes. -/
theorem finalize_contract (o : Interpreter) :
    (finalize o).m_interpreter = none ∧
    ((finalize o).torn_down = o.torn_down + 1 ↔
      (o.m_interpreter ≠ none ∧ Py_IsInitialized o ≠ 0)) ∧
    ((finalize o).torn_down = o.torn_down ↔
      ¬ (o.m_interpreter ≠ none ∧ Py_IsInitialized o ≠ 0)) ∧
    ((o.m_interpreter ≠ none ∧ Py_IsInitialized o ≠ 0) →
      finalize o = { delete_scoped_interpreter o with m_interpreter := none }) ∧
    ((o.m_interpreter ≠ none ∧ Py_IsInitialized o = 0) →
      finalize o = { o with m_interpreter := none }) ∧
    (o.m_interpreter = none → finalize o = o) := by
  unfold finalize delete_scoped_interpreter Py_IsInitialized
  by_cases hm : o.m_interpreter = none <;> by_cases hp : o.py_initialized = true <;>
    simp [hm, hp]

/-- Witness for C2: a host that holds a handle while the runtime was already torn down
elsewhere (`Py_IsInitialized()` is 0): the handle is dropped and nothing is torn down; and a
host whose runtime is up: the runtime is torn down once. -/
theorem finalize_contract_witness :
    finalize ⟨some 0, false, 1, 0⟩ = ⟨none, false, 1, 0⟩ ∧
    finalize ⟨some 0, true, 1, 0⟩ = ⟨none, false, 1, 1⟩ :=
  ⟨(finalize_contract ⟨some 0, false, 1, 0⟩).2.2.2.2.1 (by decide),
   (finalize_contract ⟨some 0, true, 1, 0⟩).2.2.2.1 (by decide)⟩

/-- C3: on a host that starts without a handle (and with no runtime up), after every finite
sequence of `initialize` and `finalize` calls at most one runtime is live, and one is live
exactly when the host holds a handle; `initialize` starts a runtime exactly when the host holds
no handle and otherwise changes nothing, so a second `initialize` leaves the state of the first
and starts no further runtime. -/
theorem at_most_one_runtime (o : Interpreter) (calls : List Call)
    (h0 : o.m_interpreter = none) (h1 : o.py_initialized = false)
    (h2 : o.started = o.torn_down) :
    live (run o calls) ≤ 1 ∧
    (run o calls).torn_down ≤ (run o calls).started ∧
    (live (run o calls) = 1 ↔ (run o calls).m_interpreter ≠ none) ∧
    ((run o calls).py_initialized = true ↔ (run o calls).m_interpreter ≠ none) ∧
    ((initialize_ (run o calls)).started = (run o calls).started + 1 ↔
      (run o calls).m_interpreter = none) ∧
    ((run o calls).m_interpreter ≠ none → initialize_ (run o calls) = run o calls) ∧
    initialize_ (initialize_ (run o calls)) = initialize_ (run o calls) ∧
    (initialize_ (initialize_ (run o calls))).started = (initialize_ (run o calls)).started := by
  have hc : Consistent (run o calls) :=
    consistent_run calls o ⟨fun _ => ⟨h1, h2⟩, fun hne => absurd h0 hne⟩
  obtain ⟨hn, hs⟩ := hc
  have hidem := initialize_idem (run o calls)
  refine ⟨?_, ?_, ?_, ?_, ?_, ?_, hidem, by rw [hidem]⟩
  · by_cases hm : (run o calls).m_interpreter = none
    · have := (hn hm).2
      unfold live; omega
    · have := (hs hm).2
      unfold live; omega
  · by_cases hm : (run o calls).m_interpreter = none
    · have := (hn hm).2
      omega
    · have := (hs hm).2
      omega
  · by_cases hm : (run o calls).m_interpreter = none
    · have := (hn hm).2
      simp only [hm, ne_eq, not_true_eq_false, iff_false]
      unfold live; omega
    · have := (hs hm).2
      simp only [hm, ne_eq, not_false_eq_true, iff_true]
      unfold live; omega
  · by_cases hm : (run o calls).m_interpreter = none
    · simp [hm, (hn hm).1]
    · simp [hm, (hs hm).1]
  · unfold initialize_ new_scoped_interpreter
    by_cases hm : (run o calls).m_interpreter = none <;> simp [hm]
  · intro hm
    unfold initialize_
    simp [hm]

/-- Witness for C3: the fresh singleton, then `initialize(); initialize(); finalize();
initialize()`. -/
theorem at_most_one_runtime_witness :
    live (run instance_ [.initialize_, .initialize_, .finalize, .initialize_]) ≤ 1 ∧
    initialize_ (initialize_ instance_) = initialize_ instance_ :=
  have h := at_most_one_runtime instance_ [.initialize_, .initialize_, .finalize, .initialize_]
    rfl rfl rfl
  ⟨h.1, by decide⟩

end Interpreter

/-! ## setup_modmesh_path: discovery of the package root -/

theorem rfind_from_ge (c : Char) (xs : List Char) :
    ∀ (i : Nat) (last : Int), last < i → last ≤ rfind_from c xs i last := by
  induction xs with
  | nil => intro i last _; simp [rfind_from]
  | cons x xs ih =>
    intro i last h
    unfold rfind_from
    by_cases hx : x = c
    · simp only [hx, if_true]
      have := ih (i + 1) (i : Int) (by push_cast; omega)
      omega
    · simp only [hx, if_false]
      exact ih (i + 1) last (by push_cast; omega)

theorem rstrip_initial (s : List Char) (c : Char) : rstrip s c <+: s := by
  unfold rstrip
  have hs := List.dropWhile_suffix (fun x => x == c) (l := s.reverse)
  simpa using List.reverse_prefix.mpr hs

theorem rstrip_eq_nil (s : List Char) (c : Char) (h : rstrip s c = []) :
    s = List.replicate s.length c := by
  unfold rstrip at h
  rw [List.reverse_eq_nil_iff, List.dropWhile_eq_nil_iff] at h
  rw [List.eq_replicate_iff]
  refine ⟨rfl, fun b hb => ?_⟩
  have := h b (List.mem_reverse.mpr hb)
  simpa using this

theorem dirname_initial (p : List Char) : dirname p <+: p := by
  unfold dirname
  simp only []
  split
  · exact (rstrip_initial _ _).trans (List.take_prefix _ _)
  · exact List.take_prefix _ _

theorem same_head_of_initial {a b : List Char} (h : a <+: b) (ha : a ≠ []) : a.head? = b.head? := by
  obtain ⟨t, rfl⟩ := h
  cases a with
  | nil => exact absurd rfl ha
  | cons x xs => rfl

theorem isabs_dirname (p : List Char) (h : isabs p = true) : isabs (dirname p) = true := by
  unfold isabs at h ⊢
  cases p with
  | nil => simp at h
  | cons x t =>
    have hx : x = sep := by simpa using h
    subst hx
    have hge : (0 : Int) ≤ rfind (sep :: t) sep := by
      unfold rfind rfind_from
      simp only [if_true]
      have := rfind_from_ge sep t (0 + 1) ((0 : Nat) : Int) (by norm_num)
      simpa using this
    obtain ⟨n, hn⟩ : ∃ n : Nat, (rfind (sep :: t) sep + 1).toNat = n + 1 :=
      ⟨(rfind (sep :: t) sep).toNat, by omega⟩
    unfold dirname
    simp only [hn, List.take_succ_cons]
    split
    · rename_i hc
      have hne : rstrip (sep :: List.take n t) sep ≠ [] := fun h0 =>
        hc.2 (rstrip_eq_nil _ _ h0)
      rw [same_head_of_initial (rstrip_initial _ _) hne]
      simp
    · simp

theorem isabs_iterate (p : List Char) (h : isabs p = true) (k : Nat) :
    isabs (dirname^[k] p) = true := by
  induction k with
  | zero => simpa using h
  | succ k ih =>
    rw [Function.iterate_succ_apply']
    exact isabs_dirname _ ih

theorem while_loop_some (exists_ : List Char → Bool) (path A : List Char)
    (h : while_loop exists_ path = some A) :
    ∃ k, A = dirname^[k] path ∧ exists_ (join A filename) = true ∧
      ∀ j, j < k → exists_ (join (dirname^[j] path) filename) = false := by
  induction path using while_loop.induct exists_ with
  | case1 path hex =>
    rw [while_loop, if_pos hex] at h
    cases h
    exact ⟨0, rfl, hex, fun j hj => absurd hj (Nat.not_lt_zero j)⟩
  | case2 path hex hfix =>
    rw [while_loop, if_neg hex, dif_pos hfix] at h
    cases h
  | case3 path hex hfix ih =>
    rw [while_loop, if_neg hex, dif_neg hfix] at h
    obtain ⟨k, hA, hE, hlt⟩ := ih h
    refine ⟨k + 1, by rw [Function.iterate_succ_apply]; exact hA, hE, fun j hj => ?_⟩
    cases j with
    | zero => simpa using hex
    | succ j =>
      rw [Function.iterate_succ_apply]
      exact hlt j (by omega)

theorem while_loop_none (exists_ : List Char → Bool) (path : List Char)
    (h : while_loop exists_ path = none) :
    ∀ k, exists_ (join (dirname^[k] path) filename) = false := by
  induction path using while_loop.induct exists_ with
  | case1 path hex =>
    rw [while_loop, if_pos hex] at h
    cases h
  | case2 path hex hfix =>
    intro k
    have hk : dirname^[k] path = path := Function.iterate_fixed hfix.symm k
    rw [hk]
    simpa using hex
  | case3 path hex hfix ih =>
    rw [while_loop, if_neg hex, dif_neg hfix] at h
    intro k
    cases k with
    | zero => simpa using hex
    | succ k =>
      rw [Function.iterate_succ_apply]
      exact ih h k

/-- C1: with `os.getcwd()` returning the (absolute) directory `D` and for every file-existence
predicate, `setup_modmesh_path` writes nothing to `std::cerr` and either prepends to `sys.path`
the first directory of the walk `D, dirname D, dirname (dirname D), ...` under which
`modmesh/__init__.py` exists, keeping the former entries behind it in order, or, when no
directory of the walk (the root included, where the walk stays) has the file, leaves `sys.path`
as it was. -/
theorem setup_modmesh_path_nearest (exists_ : List Char → Bool) (D : List Char)
    (w : PathState) (hD : isabs D = true) :
    (setup_modmesh_path exists_ (.ok D) w).cerr = w.cerr ∧
    ((∃ k, exists_ (join (dirname^[k] D) filename) = true ∧
        (∀ j, j < k → exists_ (join (dirname^[j] D) filename) = false) ∧
        (setup_modmesh_path exists_ (.ok D) w).sys_path = dirname^[k] D :: w.sys_path) ∨
     ((∀ k, exists_ (join (dirname^[k] D) filename) = false) ∧
        (setup_modmesh_path exists_ (.ok D) w).sys_path = w.sys_path)) := by
  refine ⟨rfl, ?_⟩
  cases hloop : while_loop exists_ D with
  | none =>
    right
    refine ⟨while_loop_none exists_ D hloop, ?_⟩
    simp [setup_modmesh_path, _set_modmesh_path, hloop]
  | some A =>
    left
    obtain ⟨k, hA, hE, hlt⟩ := while_loop_some exists_ D A hloop
    have hne : A ≠ [] := by
      have habs := isabs_iterate D hD k
      rw [← hA] at habs
      intro h0
      rw [h0] at habs
      simp [isabs] at habs
    subst hA
    refine ⟨k, hE, hlt, ?_⟩
    simp [setup_modmesh_path, _set_modmesh_path, hloop, hne]

/-- Witness for C1: the working directory `/T/sub/sub2` in a tree where only
`/T/modmesh/__init__.py` exists. -/
theorem setup_modmesh_path_nearest_witness :
    isabs scenario_cwd = true ∧
    (setup_modmesh_path scenario_exists (.ok scenario_cwd) scenario_state).cerr =
      scenario_state.cerr ∧
    ((∃ k, scenario_exists (join (dirname^[k] scenario_cwd) filename) = true ∧
        (∀ j, j < k → scenario_exists (join (dirname^[j] scenario_cwd) filename) = false) ∧
        (setup_modmesh_path scenario_exists (.ok scenario_cwd) scenario_state).sys_path =
          dirname^[k] scenario_cwd :: scenario_state.sys_path) ∨
     ((∀ k, scenario_exists (join (dirname^[k] scenario_cwd) filename) = false) ∧
        (setup_modmesh_path scenario_exists (.ok scenario_cwd) scenario_state).sys_path =
          scenario_state.sys_path)) :=
  ⟨by decide,
   setup_modmesh_path_nearest scenario_exists scenario_cwd scenario_state (by decide)⟩

/-- The path-discovery scenario evaluated: from `/T/sub/sub2` the loop visits `/T/sub/sub2`,
`/T/sub` and `/T`, and `/T` becomes the first entry of `sys.path`. -/
theorem setup_modmesh_path_scenario :
    setup_modmesh_path scenario_exists (.ok scenario_cwd) scenario_state =
      ⟨["/T".toList, "/usr/lib/python3".toList], ""⟩ := by
  have d1 : dirname "/T/sub/sub2".toList = "/T/sub".toList := by decide
  have d2 : dirname "/T/sub".toList = "/T".toList := by decide
  simp only [setup_modmesh_path, _set_modmesh_path, scenario_cwd, scenario_exists,
    scenario_state]
  rw [while_loop, if_neg (by decide), dif_neg (by decide), d1]
  rw [while_loop, if_neg (by decide), dif_neg (by decide), d2]
  rw [while_loop, if_pos (by decide)]
  decide

/-- When `os.getcwd()` raises, the error is caught: its message goes to `std::cerr` and
`sys.path` is untouched. -/
theorem setup_modmesh_path_error (exists_ : List Char → Bool) (what : String) (w : PathState) :
    setup_modmesh_path exists_ (.error what) w = ⟨w.sys_path, w.cerr ++ what ++ "\n"⟩ := rfl

/-! ## enter_main: the exit code -/

/-- Counterexample to C6 as stated: the scripting entry returns the integer `2147483648`
normally, and `enter_main()` does not return it: `pybind11::cast<int>` throws a `cast_error`,
which the handler for `error_already_set` does not catch. -/
theorem enter_main_large_value_escapes :
    script_returning_large.import_system = .returned () ∧
    script_returning_large.enter_main [] = .returned 2147483648 ∧
    (enter_main script_returning_large [] "").1 = .throws_cast_error ∧
    (enter_main script_returning_large [] "").1 ≠ .returns 2147483648 := by
  decide

/-- C6 (amended): for every integer `N` that fits the C++ type `int`, when the scripting entry
returns `N` then `enter_main()` returns exactly `N` and writes nothing; when importing
`modmesh.system` or calling the entry raises a Python error, `enter_main()` returns `-1`,
writes the message and a line end to `std::cerr`, and no exception leaves it. -/
theorem enter_main_passthrough (m : SystemModule) (argv : List String) (cerr : String) :
    (∀ N : Int, INT_MIN ≤ N → N ≤ INT_MAX →
      m.import_system = .returned () → m.enter_main argv = .returned N →
      enter_main m argv cerr = (.returns N, cerr)) ∧
    (∀ what : String, m.import_system = .raised what →
      enter_main m argv cerr = (.returns (-1), cerr ++ what ++ "\n")) ∧
    (∀ what : String, m.import_system = .returned () → m.enter_main argv = .raised what →
      enter_main m argv cerr = (.returns (-1), cerr ++ what ++ "\n")) := by
  refine ⟨?_, ?_, ?_⟩
  · intro N hlo hhi himp hcall
    simp [enter_main, himp, hcall, cast_int, hlo, hhi]
  · intro what himp
    simp [enter_main, himp]
  · intro what himp hcall
    simp [enter_main, himp, hcall]

/-- Witness for C6 (amended): the entry returning `7` gives `7`, the entry raising `boom` gives
`-1` with the message on `std::cerr`. -/
theorem enter_main_passthrough_witness :
    enter_main script_returning_seven ["modmesh"] "" = (.returns 7, "") ∧
    enter_main script_raising ["modmesh"] "" = (.returns (-1), "boom\n") :=
  ⟨(enter_main_passthrough script_returning_seven ["modmesh"] "").1 7
      (by decide) (by decide) rfl rfl,
   (enter_main_passthrough script_raising ["modmesh"] "").2.2 "boom" rfl rfl⟩

/-- Counterexample to C9 as stated: the scripting entry returns `-1` normally, nothing is
raised and nothing is written, and `enter_main()` returns `-1`. -/
theorem enter_main_minus_one_without_error :
    script_returning_minus_one.import_system = .returned () ∧
    script_returning_minus_one.enter_main [] = .returned (-1) ∧
    enter_main script_returning_minus_one [] "" = (.returns (-1), "") := by
  decide

/-- C9 (amended): `enter_main()` returns `-1` exactly when a Python error was raised while
importing `modmesh.system` or calling its entry, or the entry itself returned `-1`; and every
return value other than `-1` is the value the entry returned normally. -/
theorem enter_main_minus_one_iff (m : SystemModule) (argv : List String) (cerr : String) :
    ((enter_main m argv cerr).1 = .returns (-1) ↔
      ((∃ what, m.import_system = .raised what) ∨
       (m.import_system = .returned () ∧ ∃ what, m.enter_main argv = .raised what) ∨
       (m.import_system = .returned () ∧ m.enter_main argv = .returned (-1)))) ∧
    (∀ n : Int, n ≠ -1 → (enter_main m argv cerr).1 = .returns n →
      m.import_system = .returned () ∧ m.enter_main argv = .returned n) := by
  have hflip : ∀ n : Int, ¬ n = -1 → ¬ -1 = n := fun n h h1 => h h1.symm
  unfold enter_main
  cases himp : m.import_system with
  | raised what => simpa using hflip
  | returned u =>
    cases hcall : m.enter_main argv with
    | raised what => simpa using hflip
    | returned v =>
      by_cases hv : INT_MIN ≤ v ∧ v ≤ INT_MAX
      · simp [cast_int, hv]
      · simp only [cast_int, hv, if_false]
        have hne : v ≠ -1 := by
          intro h
          apply hv
          subst h
          decide
        simp [hne]

/-- Witness for C9 (amended): an entry raising `boom` gives `-1`, and the return value `7` can
only come from an entry that returned `7`. -/
theorem enter_main_minus_one_iff_witness :
    (enter_main script_raising [] "").1 = .returns (-1) ∧
    (script_returning_seven.import_system = .returned () ∧
      script_returning_seven.enter_main [] = .returned 7) :=
  ⟨((enter_main_minus_one_iff script_raising [] "").1).mpr
      (Or.inr (Or.inl ⟨rfl, "boom", rfl⟩)),
   (enter_main_minus_one_iff script_returning_seven [] "").2 7 (by decide) (by decide)⟩

/-! ## preload_module and preload_modules -/

theorem preload_module_imported (import_ : List String → String → ImportResult)
    (exec_ : List String → String → ExecResult) (name : String) (s : PreloadState) :
    (preload_module import_ exec_ name s).1.imported = s.imported ++ [name] := by
  unfold preload_module
  cases import_ s.imported name with
  | ok =>
    simp only
    cases exec_ (s.imported ++ [name]) ("import " ++ name) <;> rfl
  | raised e =>
    by_cases he : e.matches_ModuleNotFoundError = true <;> simp [he]

theorem preload_module_returns (import_ : List String → String → ImportResult)
    (exec_ : List String → String → ExecResult) (name : String) (s : PreloadState)
    (h : reports_not_found import_ s.imported name = false)
    (hx : statement_raises import_ exec_ s.imported name = false) :
    (preload_module import_ exec_ name s).2 = none := by
  unfold reports_not_found at h
  unfold statement_raises at hx
  unfold preload_module
  cases himp : import_ s.imported name with
  | ok =>
    rw [himp] at hx
    simp only at hx ⊢
    cases hex : exec_ (s.imported ++ [name]) ("import " ++ name) with
    | ok => rfl
    | raised e =>
      rw [hex] at hx
      simp at hx
  | raised e =>
    rw [himp] at h
    simp only at h
    simp [h]

theorem preload_module_throws (import_ : List String → String → ImportResult)
    (exec_ : List String → String → ExecResult) (name : String) (s : PreloadState)
    (h : reports_not_found import_ s.imported name = true) :
    ∃ e, import_ s.imported name = .raised e ∧ e.matches_ModuleNotFoundError = true ∧
      (preload_module import_ exec_ name s).2 = some e := by
  unfold reports_not_found at h
  unfold preload_module
  cases himp : import_ s.imported name with
  | ok => rw [himp] at h; simp at h
  | raised e =>
    rw [himp] at h
    simp only at h
    exact ⟨e, rfl, h, by simp [h]⟩

theorem preload_modules_append (import_ : List String → String → ImportResult)
    (exec_ : List String → String → ExecResult) (pre rest : List String) :
    ∀ s : PreloadState, (preload_modules import_ exec_ pre s).2 = none →
      preload_modules import_ exec_ (pre ++ rest) s =
        preload_modules import_ exec_ rest (preload_modules import_ exec_ pre s).1 := by
  induction pre with
  | nil => intro s _; rfl
  | cons x xs ih =>
    intro s h
    simp only [List.cons_append, preload_modules] at h ⊢
    rcases hx : preload_module import_ exec_ x s with ⟨s1, _ | e⟩
    · rw [hx] at h
      simp only at h ⊢
      exact ih s1 h
    · rw [hx] at h
      simp at h

theorem preload_modules_completes (import_ : List String → String → ImportResult)
    (exec_ : List String → String → ExecResult) (names : List String) :
    ∀ s : PreloadState,
      (∀ (j : Nat) (hj : j < names.length),
        reports_not_found import_ (s.imported ++ names.take j) (names.get ⟨j, hj⟩) = false ∧
        statement_raises import_ exec_ (s.imported ++ names.take j) (names.get ⟨j, hj⟩) =
          false) →
      (preload_modules import_ exec_ names s).2 = none ∧
      (preload_modules import_ exec_ names s).1.imported = s.imported ++ names := by
  induction names with
  | nil => intro s _; simp [preload_modules]
  | cons x xs ih =>
    intro s h
    have h0 : reports_not_found import_ s.imported x = false ∧
        statement_raises import_ exec_ s.imported x = false := by
      simpa using h 0 (by simp)
    have hret := preload_module_returns import_ exec_ x s h0.1 h0.2
    have himp := preload_module_imported import_ exec_ x s
    simp only [preload_modules]
    rcases hx : preload_module import_ exec_ x s with ⟨s1, _ | e⟩
    · rw [hx] at himp
      simp only at himp ⊢
      have hrest : ∀ (j : Nat) (hj : j < xs.length),
          reports_not_found import_ (s1.imported ++ xs.take j) (xs.get ⟨j, hj⟩) = false ∧
          statement_raises import_ exec_ (s1.imported ++ xs.take j) (xs.get ⟨j, hj⟩) =
            false := by
        intro j hj
        have := h (j + 1) (by simpa using hj)
        simpa [himp, List.append_assoc] using this
      obtain ⟨r1, r2⟩ := ih s1 hrest
      exact ⟨r1, by rw [r2, himp]; simp⟩
    · rw [hx] at hret
      simp at hret

/-- Counterexample to C7 as stated: the module file `my-module` is imported successfully, the
line `Loading my-module ... succeeds` is written, and then the statement `import my-module`
raises `SyntaxError`: the error leaves `preload_module` and no module is bound globally. -/
theorem preload_module_statement_raises :
    scenario_import scenario_preload_state.imported "my-module" = .ok ∧
    preload_module scenario_import scenario_exec "my-module" scenario_preload_state =
      (⟨"Loading my-module ... succeeds\n", ["my-module"], ["import my-module"], []⟩,
       some ⟨false, "SyntaxError: invalid syntax"⟩) ∧
    (preload_module scenario_import scenario_exec "my-module" scenario_preload_state).1.globals
      = [] := by
  decide

/-- C7 (amended): when `py::module_::import(name)` raises an error that does not match
module-not-found, `preload_module(name)` returns normally, the text it adds to `std::cerr` is
exactly the line `Loading <name> ... fails`, no `import <name>` is executed and no name is
bound in the global namespace; when the import succeeds the added line is
`Loading <name> ... succeeds` and `import <name>` is executed, and when that statement raises
nothing the module is bound globally and `preload_module` returns normally. -/
theorem preload_module_contract (import_ : List String → String → ImportResult)
    (exec_ : List String → String → ExecResult) (name : String) (s : PreloadState) :
    (∀ e, import_ s.imported name = .raised e → e.matches_ModuleNotFoundError = false →
      (preload_module import_ exec_ name s).2 = none ∧
      (preload_module import_ exec_ name s).1.cerr =
        s.cerr ++ ("Loading " ++ name ++ " ... fails" ++ "\n") ∧
      (preload_module import_ exec_ name s).1.executed = s.executed ∧
      (preload_module import_ exec_ name s).1.globals = s.globals) ∧
    (import_ s.imported name = .ok →
      (preload_module import_ exec_ name s).1.cerr =
        s.cerr ++ ("Loading " ++ name ++ " ... succeeds" ++ "\n") ∧
      (preload_module import_ exec_ name s).1.executed = s.executed ++ ["import " ++ name] ∧
      (exec_ (s.imported ++ [name]) ("import " ++ name) = .ok →
        (preload_module import_ exec_ name s).2 = none ∧
        (preload_module import_ exec_ name s).1.globals = s.globals ++ [name])) := by
  refine ⟨?_, ?_⟩
  · intro e himp hm
    simp [preload_module, himp, hm, String.append_assoc]
  · intro himp
    cases hex : exec_ (s.imported ++ [name]) ("import " ++ name) with
    | ok => simp [preload_module, himp, hex, String.append_assoc]
    | raised e => simp [preload_module, himp, hex, String.append_assoc]

/-- Witness for C7 (amended): the broken module `bad` and the loadable module `numpy` in the
scenario runtime. -/
theorem preload_module_contract_witness :
    ((preload_module scenario_import scenario_exec "bad" scenario_preload_state).2 = none ∧
      (preload_module scenario_import scenario_exec "bad" scenario_preload_state).1.cerr =
        "" ++ ("Loading " ++ "bad" ++ " ... fails" ++ "\n") ∧
      (preload_module scenario_import scenario_exec "bad" scenario_preload_state).1.executed =
        [] ∧
      (preload_module scenario_import scenario_exec "bad" scenario_preload_state).1.globals =
        []) ∧
    ((preload_module scenario_import scenario_exec "numpy" scenario_preload_state).2 = none ∧
      (preload_module scenario_import scenario_exec "numpy" scenario_preload_state).1.globals =
        [] ++ ["numpy"]) :=
  ⟨(preload_module_contract scenario_import scenario_exec "bad" scenario_preload_state).1
      ⟨false, "RuntimeError: broken"⟩ rfl rfl,
   ((preload_module_contract scenario_import scenario_exec "numpy" scenario_preload_state).2
      rfl).2.2 rfl⟩

/-- Counterexample to C8 as stated: in the list `my-module, b` the first name fails with an
error that is not module-not-found (its import succeeds and the statement `import my-module`
raises `SyntaxError`), and it does stop the sequence: the error leaves `preload_modules` and
`b` is never attempted. -/
theorem preload_modules_stopped_by_statement :
    reports_not_found scenario_import scenario_preload_state.imported "my-module" = false ∧
    (preload_modules scenario_import scenario_exec ["my-module", "b"]
      scenario_preload_state).2 = some ⟨false, "SyntaxError: invalid syntax"⟩ ∧
    (preload_modules scenario_import scenario_exec ["my-module", "b"]
      scenario_preload_state).1.imported = ["my-module"] := by
  decide

/-- C8 (amended): `preload_modules` handles the names in list order. If for no name before
position `i` the import reports module-not-found or the statement `import <name>` run after a
successful import raises (import errors of any other kind are allowed), and the name at
position `i` meets module-not-found, then the error of that import leaves `preload_modules`,
the names before it have all been handled and their handling returned normally, the imports
attempted are exactly the names up to position `i`, and no later name is attempted. If no
name stops the sequence in one of these two ways, every name is attempted, in order, and the
call returns normally, whatever other import errors occur. -/
theorem preload_modules_order (import_ : List String → String → ImportResult)
    (exec_ : List String → String → ExecResult) (s : PreloadState) :
    (∀ (pre post : List String) (n : String),
      (∀ (j : Nat) (hj : j < pre.length),
        reports_not_found import_ (s.imported ++ pre.take j) (pre.get ⟨j, hj⟩) = false ∧
        statement_raises import_ exec_ (s.imported ++ pre.take j) (pre.get ⟨j, hj⟩) =
          false) →
      reports_not_found import_ (s.imported ++ pre) n = true →
      ∃ e, import_ (s.imported ++ pre) n = .raised e ∧
        e.matches_ModuleNotFoundError = true ∧
        (preload_modules import_ exec_ (pre ++ n :: post) s).2 = some e ∧
        (preload_modules import_ exec_ pre s).2 = none ∧
        (preload_modules import_ exec_ pre s).1.imported = s.imported ++ pre ∧
        (preload_modules import_ exec_ (pre ++ n :: post) s).1 =
          (preload_module import_ exec_ n (preload_modules import_ exec_ pre s).1).1 ∧
        (preload_modules import_ exec_ (pre ++ n :: post) s).1.imported =
          s.imported ++ pre ++ [n]) ∧
    (∀ names : List String,
      (∀ (j : Nat) (hj : j < names.length),
        reports_not_found import_ (s.imported ++ names.take j) (names.get ⟨j, hj⟩) = false ∧
        statement_raises import_ exec_ (s.imported ++ names.take j) (names.get ⟨j, hj⟩) =
          false) →
      (preload_modules import_ exec_ names s).2 = none ∧
      (preload_modules import_ exec_ names s).1.imported = s.imported ++ names) := by
  refine ⟨?_, fun names h => preload_modules_completes import_ exec_ names s h⟩
  intro pre post n hpre hn
  obtain ⟨hret, himp⟩ := preload_modules_completes import_ exec_ pre s hpre
  rw [← himp] at hn
  obtain ⟨e, he, hm, hthrow⟩ := preload_module_throws import_ exec_ n _ hn
  have hstep : preload_modules import_ exec_ (n :: post)
      (preload_modules import_ exec_ pre s).1 =
      ((preload_module import_ exec_ n (preload_modules import_ exec_ pre s).1).1,
        some e) := by
    simp only [preload_modules]
    rcases hx : preload_module import_ exec_ n (preload_modules import_ exec_ pre s).1
      with ⟨s1, _ | e1⟩
    · rw [hx] at hthrow
      simp at hthrow
    · rw [hx] at hthrow
      simp only [Option.some.injEq] at hthrow
      simp [hthrow]
  rw [preload_modules_append import_ exec_ pre (n :: post) s hret, hstep]
  refine ⟨e, himp ▸ he, hm, rfl, hret, himp, rfl, ?_⟩
  simp only
  rw [preload_module_imported, himp]

/-- Witness for C8 (amended): the list `a, bad, zzz_nonexistent, b`: `a` loads, `bad` fails
and is passed over, `zzz_nonexistent` aborts the sequence, `b` is never attempted. -/
theorem preload_modules_order_witness :
    ∃ e, scenario_import ([] ++ ["a", "bad"]) "zzz_nonexistent" = .raised e ∧
      (preload_modules scenario_import scenario_exec
        (["a", "bad"] ++ "zzz_nonexistent" :: ["b"]) scenario_preload_state).2 = some e ∧
      (preload_modules scenario_import scenario_exec
        (["a", "bad"] ++ "zzz_nonexistent" :: ["b"]) scenario_preload_state).1.imported =
          [] ++ ["a", "bad"] ++ ["zzz_nonexistent"] :=
  have h := (preload_modules_order scenario_import scenario_exec scenario_preload_state).1
    ["a", "bad"] ["b"] "zzz_nonexistent" (by decide) (by decide)
  h.elim fun e he => ⟨e, he.1, he.2.2.1, he.2.2.2.2.2.2⟩

/-- The preload scenario evaluated: text on `std::cerr`, imports attempted, statements
executed and names bound when the sequence `a, bad, zzz_nonexistent, b` is aborted. -/
theorem preload_modules_scenario :
    preload_modules scenario_import scenario_exec ["a", "bad", "zzz_nonexistent", "b"]
        scenario_preload_state =
      (⟨"Loading a ... succeeds\nLoading bad ... fails\nLoading zzz_nonexistent ... ",
        ["a", "bad", "zzz_nonexistent"], ["import a"], ["a"]⟩,
       some ⟨true, "ModuleNotFoundError: No module named zzz_nonexistent"⟩) := by
  decide

/-! ## PythonStreamRedirect -/

namespace PythonStreamRedirect

theorem write_at_end (c s : List Char) :
    PyObject.write s (.text_buffer c c.length) = .text_buffer (c ++ s) (c ++ s).length := by
  by_cases hs : s = []
  · simp [PyObject.write, hs]
  · simp [PyObject.write, hs]

theorem runtime_write_hit (rt : Runtime) (ref : Nat) (s : List Char) (o : PyObject)
    (h : rt.heap[ref]? = some o) :
    (rt.write ref s).heap[ref]? = some (o.write s) := by
  have hlt : ref < rt.heap.length := by
    by_contra hge
    rw [List.getElem?_eq_none (by omega)] at h
    cases h
  simp [Runtime.write, h, hlt]

theorem runtime_write_miss (rt : Runtime) (ref other : Nat) (s : List Char)
    (hne : ref ≠ other) :
    (rt.write ref s).heap[other]? = rt.heap[other]? := by
  unfold Runtime.write
  cases rt.heap[ref]? with
  | none => rfl
  | some o => simp [List.getElem?_set_ne hne]

theorem runtime_write_streams (rt : Runtime) (ref : Nat) (s : List Char) :
    (rt.write ref s).sys_stdout = rt.sys_stdout ∧
    (rt.write ref s).sys_stderr = rt.sys_stderr := by
  unfold Runtime.write
  cases rt.heap[ref]? <;> simp

theorem rewind_and_read_buffer (rt : Runtime) (ref : Nat) (c : List Char) (p : Nat)
    (h : rt.heap[ref]? = some (.text_buffer c p)) :
    rewind_and_read (some ref) rt =
      some (c, { rt with heap := rt.heap.set ref (.text_buffer c c.length) }) := by
  simp [rewind_and_read, h, PyObject.seek, PyObject.read]

theorem captures_read_stdout (out err : Nat) (rt : Runtime) (tout terr : List Char)
    (hne : out ≠ err) (h : Captures out err rt tout terr) :
    ∃ rt1, rewind_and_read (some out) rt = some (tout, rt1) ∧ Captures out err rt1 tout terr := by
  obtain ⟨h1, h2, h3, h4⟩ := h
  have hlt : out < rt.heap.length := by
    by_contra hge
    rw [List.getElem?_eq_none (by omega)] at h3
    cases h3
  refine ⟨_, rewind_and_read_buffer rt out tout _ h3, h1, h2, ?_, ?_⟩
  · simp [hlt]
  · simp [List.getElem?_set_ne hne, h4]

theorem captures_read_stderr (out err : Nat) (rt : Runtime) (tout terr : List Char)
    (hne : out ≠ err) (h : Captures out err rt tout terr) :
    ∃ rt1, rewind_and_read (some err) rt = some (terr, rt1) ∧ Captures out err rt1 tout terr := by
  obtain ⟨h1, h2, h3, h4⟩ := h
  have hlt : err < rt.heap.length := by
    by_contra hge
    rw [List.getElem?_eq_none (by omega)] at h4
    cases h4
  refine ⟨_, rewind_and_read_buffer rt err terr _ h4, h1, h2, ?_, ?_⟩
  · simp [List.getElem?_set_ne hne.symm, h3]
  · simp [hlt]

theorem captures_write_stdout (out err : Nat) (rt : Runtime) (tout terr s : List Char)
    (hne : out ≠ err) (h : Captures out err rt tout terr) :
    Captures out err (rt.write_stdout s) (tout ++ s) terr := by
  obtain ⟨h1, h2, h3, h4⟩ := h
  unfold Runtime.write_stdout
  rw [h1]
  obtain ⟨w1, w2⟩ := runtime_write_streams rt out s
  refine ⟨w1.trans h1, w2.trans h2, ?_, ?_⟩
  · rw [runtime_write_hit rt out s _ h3, write_at_end]
  · rw [runtime_write_miss rt out err s hne, h4]

theorem captures_write_stderr (out err : Nat) (rt : Runtime) (tout terr s : List Char)
    (hne : out ≠ err) (h : Captures out err rt tout terr) :
    Captures out err (rt.write_stderr s) tout (terr ++ s) := by
  obtain ⟨h1, h2, h3, h4⟩ := h
  unfold Runtime.write_stderr
  rw [h2]
  obtain ⟨w1, w2⟩ := runtime_write_streams rt err s
  refine ⟨w1.trans h1, w2.trans h2, ?_, ?_⟩
  · rw [runtime_write_miss rt err out s hne.symm, h3]
  · rw [runtime_write_hit rt err s _ h4, write_at_end]

theorem captures_after_all (r : PythonStreamRedirect) (out err : Nat) (hne : out ≠ err)
    (hout : r.m_stdout_buffer = some out) (herr : r.m_stderr_buffer = some err)
    (events : List Event) :
    ∀ (rt : Runtime) (tout terr : List Char), Captures out err rt tout terr →
      Captures out err (after_all r rt events)
        (tout ++ stdout_text events) (terr ++ stderr_text events) := by
  induction events with
  | nil => intro rt tout terr h; simpa [after_all, stdout_text, stderr_text] using h
  | cons ev evs ih =>
    intro rt tout terr h
    cases ev with
    | write_stdout s =>
      have := ih _ _ _ (captures_write_stdout out err rt tout terr s hne h)
      simpa [after_all, after, stdout_text, stderr_text, List.append_assoc] using this
    | write_stderr s =>
      have := ih _ _ _ (captures_write_stderr out err rt tout terr s hne h)
      simpa [after_all, after, stdout_text, stderr_text, List.append_assoc] using this
    | stdout_string =>
      obtain ⟨rt1, hr, hc⟩ := captures_read_stdout out err rt tout terr hne h
      have := ih _ _ _ hc
      simpa [after_all, after, stdout_text, stderr_text, stdout_string, hout, hr] using this
    | stderr_string =>
      obtain ⟨rt1, hr, hc⟩ := captures_read_stderr out err rt tout terr hne h
      have := ih _ _ _ hc
      simpa [after_all, after, stdout_text, stderr_text, stderr_string, herr, hr] using this

theorem activate_captures (r : PythonStreamRedirect) (rt : Runtime)
    (hen : r.m_enabled = true) :
    (r.activate rt).1.m_stdout_buffer = some rt.heap.length ∧
    (r.activate rt).1.m_stderr_buffer = some (rt.heap.length + 1) ∧
    Captures rt.heap.length (rt.heap.length + 1) (r.activate rt).2 [] [] := by
  simp only [activate, hen, if_true, Runtime.string_io, Captures, List.length_append,
    List.length_singleton, List.append_assoc, List.singleton_append]
  refine ⟨by simp, by simp, trivial, trivial, ?_, ?_⟩
  · rw [List.getElem?_append_right (le_refl _)]
    simp
  · rw [List.getElem?_append_right (Nat.le_succ _)]
    simp

theorem heap_set_same (heap : List PyObject) (x : PyObject) :
    ∀ ref : Nat, heap[ref]? = some x → heap.set ref x = heap := by
  induction heap with
  | nil => intro ref h; simp
  | cons y ys ih =>
    intro ref h
    cases ref with
    | zero =>
      simp only [List.getElem?_cons_zero, Option.some.injEq] at h
      simp [h]
    | succ k =>
      simp only [List.getElem?_cons_succ] at h
      simp [ih k h]

theorem stdout_text_append (xs ys : List Event) :
    stdout_text (xs ++ ys) = stdout_text xs ++ stdout_text ys := by
  induction xs with
  | nil => rfl
  | cons x xs ih => cases x <;> simp [stdout_text, ih]

theorem activate_keeps_backups (r : PythonStreamRedirect) (rt : Runtime) (a b : Nat)
    (hen : r.m_enabled = true) (ha : r.m_stdout_backup = some a)
    (hb : r.m_stderr_backup = some b) :
    (r.activate rt).1.m_enabled = true ∧ (r.activate rt).1.m_stdout_backup = some a ∧
    (r.activate rt).1.m_stderr_backup = some b := by
  simp [activate, hen, ha, hb, Runtime.string_io]

theorem activate_fills_backups (r : PythonStreamRedirect) (rt : Runtime)
    (hen : r.m_enabled = true) (ha : r.m_stdout_backup = none)
    (hb : r.m_stderr_backup = none) :
    (r.activate rt).1.m_enabled = true ∧
    (r.activate rt).1.m_stdout_backup = some rt.sys_stdout ∧
    (r.activate rt).1.m_stderr_backup = some rt.sys_stderr := by
  simp [activate, hen, ha, hb, Runtime.string_io]

theorem activate_times_keeps_backups (n : Nat) (a b : Nat) :
    ∀ (r : PythonStreamRedirect) (rt : Runtime), r.m_enabled = true →
      r.m_stdout_backup = some a → r.m_stderr_backup = some b →
      (activate_times n r rt).1.m_enabled = true ∧
      (activate_times n r rt).1.m_stdout_backup = some a ∧
      (activate_times n r rt).1.m_stderr_backup = some b := by
  induction n with
  | zero => intro r rt hen ha hb; exact ⟨hen, ha, hb⟩
  | succ n ih =>
    intro r rt hen ha hb
    obtain ⟨h1, h2, h3⟩ := activate_keeps_backups r rt a b hen ha hb
    exact ih (r.activate rt).1 (r.activate rt).2 h1 h2 h3

theorem deactivate_restores (r : PythonStreamRedirect) (rt : Runtime) (a b : Nat)
    (ha : r.m_stdout_backup = some a) (hb : r.m_stderr_backup = some b) :
    (r.deactivate rt).2.sys_stdout = a ∧ (r.deactivate rt).2.sys_stderr = b ∧
    (r.deactivate rt).1.m_stdout_backup = none ∧
    (r.deactivate rt).1.m_stderr_backup = none := by
  simp [deactivate, ha, hb]

theorem deactivate_without_backups (r : PythonStreamRedirect) (rt : Runtime)
    (ha : r.m_stdout_backup = none) (hb : r.m_stderr_backup = none) :
    r.deactivate rt = (r, rt) := by
  simp [deactivate, ha, hb]

/-- C4: for an enabled redirector, after `activate()` and any sequence of writes to the
runtime's standard output and standard error and of reads of the two captured strings,
`stdout_string()` returns exactly the concatenation of the texts written to standard output
since that `activate()`, and `stderr_string()` that of the texts written to standard error.
Reading does not clear: a second read right after a read returns the same text, and a text
written after a read is appended to what was captured. After `activate()`, `print("hello")`
gives `stdout_string() == "hello\n"`. -/
theorem stdout_string_captures (r : PythonStreamRedirect) (rt : Runtime)
    (events : List Event) (hen : r.m_enabled = true) :
    ((r.activate rt).1.stdout_string
        (after_all (r.activate rt).1 (r.activate rt).2 events)).map Prod.fst =
      some (stdout_text events) ∧
    ((r.activate rt).1.stderr_string
        (after_all (r.activate rt).1 (r.activate rt).2 events)).map Prod.fst =
      some (stderr_text events) ∧
    (∃ rt1, (r.activate rt).1.stdout_string
        (after_all (r.activate rt).1 (r.activate rt).2 events) =
          some (stdout_text events, rt1) ∧
      (r.activate rt).1.stdout_string rt1 = some (stdout_text events, rt1)) ∧
    (∀ s : List Char, ((r.activate rt).1.stdout_string
        (after_all (r.activate rt).1 (r.activate rt).2
          (events ++ [.stdout_string, .write_stdout s]))).map Prod.fst =
      some (stdout_text events ++ s)) ∧
    ((r.activate rt).1.stdout_string ((r.activate rt).2.print "hello".toList)).map Prod.fst =
      some "hello\n".toList := by
  obtain ⟨hout, herr, hcap⟩ := activate_captures r rt hen
  have hne : rt.heap.length ≠ rt.heap.length + 1 := by omega
  have hall : ∀ evs : List Event, Captures rt.heap.length (rt.heap.length + 1)
      (after_all (r.activate rt).1 (r.activate rt).2 evs)
      (stdout_text evs) (stderr_text evs) := by
    intro evs
    simpa using captures_after_all (r.activate rt).1 _ _ hne hout herr evs _ _ _ hcap
  have hread : ∀ evs : List Event, ((r.activate rt).1.stdout_string
      (after_all (r.activate rt).1 (r.activate rt).2 evs)).map Prod.fst =
        some (stdout_text evs) := by
    intro evs
    obtain ⟨rt1, hr, _⟩ := captures_read_stdout _ _ _ _ _ hne (hall evs)
    simp [stdout_string, hout, hr]
  refine ⟨hread events, ?_, ?_, ?_, ?_⟩
  · obtain ⟨rt1, hr, _⟩ := captures_read_stderr _ _ _ _ _ hne (hall events)
    simp [stderr_string, herr, hr]
  · obtain ⟨rt1, hr, hc⟩ := captures_read_stdout _ _ _ _ _ hne (hall events)
    obtain ⟨rt2, hr2, _⟩ := captures_read_stdout _ _ _ _ _ hne hc
    refine ⟨rt1, by simp [stdout_string, hout, hr], ?_⟩
    have hsame : rt2 = rt1 := by
      obtain ⟨_, _, h3, _⟩ := hc
      rw [rewind_and_read_buffer rt1 _ _ _ h3] at hr2
      simp only [Option.some.injEq, Prod.mk.injEq, true_and] at hr2
      rw [← hr2]
      cases rt1 with
      | mk heap so se =>
        simp only [Runtime.mk.injEq, and_true] at h3 ⊢
        exact heap_set_same heap _ _ h3
    rw [hsame] at hr2
    simp [stdout_string, hout, hr2]
  · intro s
    rw [hread (events ++ [Event.stdout_string, Event.write_stdout s]), stdout_text_append]
    simp [stdout_text]
  · have hp : (r.activate rt).2.print "hello".toList =
        after_all (r.activate rt).1 (r.activate rt).2
          [.write_stdout "hello".toList, .write_stdout "\n".toList] := rfl
    rw [hp, hread]
    rfl

/-- Witness for C4: a script writes `ab`, the host reads, the script writes `cd` and something
to standard error, and the host reads again. -/
theorem stdout_string_captures_witness :
    (fresh true).m_enabled = true ∧
    (((fresh true).activate scenario_runtime).1.stdout_string
        (after_all ((fresh true).activate scenario_runtime).1
          ((fresh true).activate scenario_runtime).2
          [.write_stdout "ab".toList, .stdout_string, .write_stdout "cd".toList,
           .write_stderr "E".toList])).map Prod.fst = some "abcd".toList :=
  ⟨rfl, (stdout_string_captures (fresh true) scenario_runtime
      [.write_stdout "ab".toList, .stdout_string, .write_stdout "cd".toList,
       .write_stderr "E".toList] rfl).1⟩

/-- C5: for an enabled redirector holding no backups and every `n ≥ 1`, `n` calls of
`activate()` followed by one `deactivate()` leave `sys.stdout` and `sys.stderr` the objects
they were before the first `activate()`, and leave both backup members empty. -/
theorem nested_activate_restores (r : PythonStreamRedirect) (rt : Runtime) (n : Nat)
    (hen : r.m_enabled = true) (hout : r.m_stdout_backup = none)
    (herr : r.m_stderr_backup = none) (hn : 1 ≤ n) :
    ((activate_times n r rt).1.deactivate (activate_times n r rt).2).2.sys_stdout =
      rt.sys_stdout ∧
    ((activate_times n r rt).1.deactivate (activate_times n r rt).2).2.sys_stderr =
      rt.sys_stderr ∧
    ((activate_times n r rt).1.deactivate (activate_times n r rt).2).1.m_stdout_backup =
      none ∧
    ((activate_times n r rt).1.deactivate (activate_times n r rt).2).1.m_stderr_backup =
      none := by
  obtain ⟨k, rfl⟩ : ∃ k, n = k + 1 := ⟨n - 1, by omega⟩
  obtain ⟨h1, h2, h3⟩ := activate_fills_backups r rt hen hout herr
  obtain ⟨_, k2, k3⟩ := activate_times_keeps_backups k rt.sys_stdout rt.sys_stderr
    (r.activate rt).1 (r.activate rt).2 h1 h2 h3
  exact deactivate_restores _ _ _ _ k2 k3

/-- Witness for C5: `activate(); activate(); deactivate()` on a fresh enabled redirector puts
the two console streams back, not the buffers of the first activation. -/
theorem nested_activate_restores_witness :
    ((activate_times 2 (fresh true) scenario_runtime).1.deactivate
        (activate_times 2 (fresh true) scenario_runtime).2).2.sys_stdout = 0 ∧
    (activate_times 1 (fresh true) scenario_runtime).2.sys_stdout = 2 :=
  ⟨(nested_activate_restores (fresh true) scenario_runtime 2 rfl rfl rfl (by decide)).1,
   by decide⟩

/-- Counterexample to C10 as stated: a redirector whose enable flag is false but which still
holds the backups of an earlier activation. The sequence `activate(); deactivate()` leaves
`sys.stdout` and `sys.stderr` different from the objects installed before the sequence. -/
theorem disabled_deactivate_changes_streams :
    disabled_holding_backups.m_enabled = false ∧
    scenario_runtime_redirected.sys_stdout = 2 ∧
    scenario_runtime_redirected.sys_stderr = 3 ∧
    (run (disabled_holding_backups, scenario_runtime_redirected)
      [.activate, .deactivate]).2.sys_stdout = 0 ∧
    (run (disabled_holding_backups, scenario_runtime_redirected)
      [.activate, .deactivate]).2.sys_stderr = 1 := by
  decide

/-- C10 (amended): for a redirector whose enable flag is false, `activate()` changes neither
the runtime (so not `sys.stdout` or `sys.stderr`) nor the redirector (so no backup member is
filled); and when such a redirector holds no backups, every sequence of `activate()` and
`deactivate()` calls leaves the runtime and the redirector as they were before it. -/
theorem disabled_redirector_inert (r : PythonStreamRedirect) (rt : Runtime)
    (hen : r.m_enabled = false) :
    r.activate rt = (r, rt) ∧
    (r.m_stdout_backup = none → r.m_stderr_backup = none →
      ∀ calls : List Call, run (r, rt) calls = (r, rt)) := by
  have hact : r.activate rt = (r, rt) := by simp [activate, hen]
  refine ⟨hact, fun ha hb calls => ?_⟩
  induction calls with
  | nil => rfl
  | cons c cs ih =>
    have hstep : step (r, rt) c = (r, rt) := by
      cases c
      · exact hact
      · exact deactivate_without_backups r rt ha hb
    simpa [run, hstep] using ih

/-- Witness for C10 (amended): a fresh disabled redirector under
`activate(); deactivate(); activate()`. -/
theorem disabled_redirector_inert_witness :
    (fresh false).m_enabled = false ∧
    run (fresh false, scenario_runtime) [.activate, .deactivate, .activate] =
      (fresh false, scenario_runtime) :=
  ⟨rfl, (disabled_redirector_inert (fresh false) scenario_runtime rfl).2 rfl rfl
    [.activate, .deactivate, .activate]⟩

end PythonStreamRedirect

end python
end modmesh
